import Mathlib

/-!
Verification of the OneBox mail-aggregation pipeline.

Shallow embedding of the synchronization and processing pipeline:
`AIService.categorizeEmail`, `ImapService.processAndIndexEmail`,
`ImapService.initialSync`, `ImapService.setupRealTimeIdle`,
`ImapService.startSync` and `ElasticsearchService.indexDocument`.

Modelling conventions:
* Machine time is abstracted to `Nat` (the backfill lower bound is computed
  at day granularity in the source, via `toISOString().split('T')[0]`, so a
  single abstract clock unit stands for one day).
* External services (the OpenAI call, the IMAP session, mailparser) are
  modelled as explicit environment functions describing their outcome on a
  given input; a `try`/`catch` in the source makes the embedded function
  total on the corresponding failure outcome.
* JavaScript `||` chains on strings are falsy on the empty string; `jsOr`
  reproduces that.
* The Elasticsearch index is an association list keyed by document id;
  `client.index { id, document }` is a keyed replace-or-insert.
-/

namespace OneBox

/-- The closed label set `VALID_CATEGORIES` from `AIService.ts`. -/
def VALID_CATEGORIES : List String :=
  ["Interested", "Meeting Booked", "Not Interested", "Spam", "Out of Office",
   "Uncategorized"]

/-- Outcome of one OpenAI chat-completion call as observed by
`categorizeEmail` after the `response_format: json_object` round trip:
the call throws, the returned content is empty/null, `JSON.parse` throws
on the content, or a `category` string is extracted. -/
inductive OracleCallResult where
  | throws : OracleCallResult
  | emptyContent : OracleCallResult
  | malformedJson : OracleCallResult
  | category (c : String) : OracleCallResult
  deriving DecidableEq, Repr

/-- Environment of `AIService`: whether `OPENAI_API_KEY` is set, and the
behaviour of the external OpenAI call on a given (subject, truncated body)
pair. -/
structure OracleEnv where
  apiKeySet : Bool
  call : String → String → OracleCallResult

/-- `AIService.categorizeEmail`.  Without an API key it returns
`Uncategorized` immediately.  Otherwise the body is truncated to 2000
characters for the prompt; a throwing call, empty content, malformed JSON,
or a category outside `VALID_CATEGORIES` all fall back to `Uncategorized`
(the `try`/`catch` and the `includes` validation in the source). -/
def categorizeEmail (env : OracleEnv) (subject body : String) : String :=
  if !env.apiKeySet then "Uncategorized"
  else
    match env.call subject (body.take 2000) with
    | .throws => "Uncategorized"
    | .emptyContent => "Uncategorized"
    | .malformedJson => "Uncategorized"
    | .category c =>
        if c ≠ "" ∧ c ∈ VALID_CATEGORIES then c else "Uncategorized"

/-- One entry of a mailparser `AddressObject.value` array: `{ address?: string }`. -/
structure AddressEntry where
  address : Option String
  deriving DecidableEq, Repr

/-- A mailparser `AddressObject`: `{ value?: EmailAddress[] }`. -/
structure AddressObject where
  value : Option (List AddressEntry)
  deriving DecidableEq, Repr

/-- `parsed.to` is either one `AddressObject` or an array of them
(the `Array.isArray` check in the source). -/
inductive ToField where
  | single (a : AddressObject) : ToField
  | many (l : List AddressObject) : ToField
  deriving DecidableEq, Repr

/-- The fields of a mailparser result that `processAndIndexEmail` reads.
Dates are abstract `Nat` timestamps. -/
structure ParsedMail where
  messageId : Option String
  subject : Option String
  text : Option String
  html : Option String
  textAsHtml : Option String
  «from» : Option AddressObject
  «to» : Option ToField
  date : Option Nat
  deriving DecidableEq, Repr

/-- Outcome of `simpleParser` on a raw source buffer: a parsed mail, or a
rejection (caught by the outer `catch` of `processAndIndexEmail`). -/
inductive ParseOutcome where
  | ok (p : ParsedMail) : ParseOutcome
  | throws : ParseOutcome
  deriving DecidableEq, Repr

/-- The fields of an imapflow `FetchMessageObject` that the pipeline reads:
the UID, the optional raw source (bundled with what `simpleParser` does to
it), and the optional flag set. -/
structure FetchMessageObject where
  uid : Nat
  source : Option ParseOutcome
  flags : Option (List String)
  deriving DecidableEq, Repr

/-- The canonical persisted entity (`EmailDocument` in `Email.ts`).
`ai_category` is kept as a string exactly as the pipeline computes it. -/
structure EmailDocument where
  id : String
  account_id : String
  folder : String
  message_id : String
  subject : String
  body_text : String
  body_html : String
  «from» : String
  «to» : String
  date : Nat
  ai_category : String
  read : Bool
  flags : List String
  deriving DecidableEq, Repr

/-- JavaScript `a || d` for an optional string `a`: the default is taken
when `a` is absent or the empty string (both are falsy). -/
def jsOr (v : Option String) (d : String) : String :=
  match v with
  | none => d
  | some s => if s = "" then d else s

/-- The recipient-extraction IIFE of `processAndIndexEmail`: flatten
`parsed.to` into addresses, drop falsy entries, comma-join, and fall back
to the sentinel when nothing survives. -/
def extractToList (pto : Option ToField) : String :=
  match pto with
  | none => "unknown@example.com"
  | some tf =>
      let recipients : List AddressObject :=
        match tf with
        | .single a => [a]
        | .many l => l
      let addresses : List (Option String) :=
        recipients.flatMap fun r =>
          match r.value with
          | none => []
          | some vs => vs.map (fun a => a.address)
      let filtered := (addresses.filterMap id).filter (fun s => s ≠ "")
      let joined := String.intercalate ", " filtered
      if joined = "" then "unknown@example.com" else joined

/-- The `EmailDocument` constructed by `processAndIndexEmail` (lines
502–516 of the service): every field with its fallback chain.  `now` is
the value of `new Date()` at construction time. -/
def buildEmailDocument (accountId folder : String) (uid : Nat)
    (flags : Option (List String)) (parsed : ParsedMail)
    (aiCategory : String) (now : Nat) : EmailDocument :=
  { id := accountId ++ "-" ++ toString uid
    account_id := accountId
    folder := folder
    message_id := jsOr parsed.messageId ("no-id-" ++ toString uid)
    subject := jsOr parsed.subject "(No Subject)"
    body_text := jsOr parsed.text ""
    body_html := jsOr parsed.html (jsOr parsed.textAsHtml "")
    «from» :=
      jsOr (((parsed.«from».bind fun a => a.value).bind List.head?).bind
        fun e => e.address) "unknown@example.com"
    «to» := extractToList parsed.«to»
    date := parsed.date.getD now
    ai_category := aiCategory
    read :=
      match flags with
      | some fs => fs.contains "\\Seen"
      | none => false
    flags := flags.getD [] }

/-- The Elasticsearch `emails` index, keyed by document id. -/
abbrev Store := List (String × EmailDocument)

/-- Keyed replace-or-insert: the semantics of `client.index { id, document }`
on a store whose keys are unique. -/
def upsert : Store → String → EmailDocument → Store
  | [], i, doc => [(i, doc)]
  | kv :: rest, i, doc =>
      if kv.1 = i then (i, doc) :: rest else kv :: upsert rest i doc

/-- Environment of one processing run: the classification oracle, whether
the Elasticsearch `index` call fails (its failure is caught inside
`indexDocument`), and the current clock. -/
structure PipelineEnv where
  oracle : OracleEnv
  indexFails : Bool
  now : Nat

/-- `ElasticsearchService.indexDocument`: upserts keyed by `email.id`; a
failing `client.index` call is caught and logged inside the method, so the
store is left unchanged and the method returns normally either way. -/
def indexDocument (env : PipelineEnv) (store : Store)
    (email : EmailDocument) : Store :=
  if env.indexFails then store else upsert store email.id email

/-- Observable side effects of one `processAndIndexEmail` run: a
classification-oracle call, a Document Store write attempt, or a
Notification Sink invocation (`triggerInterestedAutomation`). -/
inductive Effect where
  | classify (subject body : String) : Effect
  | indexAttempt (doc : EmailDocument) : Effect
  | notify (doc : EmailDocument) : Effect
  deriving DecidableEq, Repr

/-- `ImapService.processAndIndexEmail`.  A missing source buffer returns
early; a `simpleParser` rejection is caught by the method's outer `catch`;
otherwise the mail is classified, the document built and indexed, and the
automation fired exactly when the category is `Interested`.  The function
is total: no failure escapes to the caller. -/
def processAndIndexEmail (env : PipelineEnv) (store : Store)
    (msg : FetchMessageObject) (accountId folder : String) :
    Store × List Effect :=
  match msg.source with
  | none => (store, [])
  | some .throws => (store, [])
  | some (.ok parsed) =>
      let subjectArg := jsOr parsed.subject "(No Subject)"
      let bodyArg := jsOr parsed.text (jsOr parsed.html "")
      let aiCategory := categorizeEmail env.oracle subjectArg bodyArg
      let doc := buildEmailDocument accountId folder msg.uid msg.flags
        parsed aiCategory env.now
      let store2 := indexDocument env store doc
      let notif :=
        if aiCategory = "Interested" then [Effect.notify doc] else []
      (store2, [Effect.classify subjectArg bodyArg,
                Effect.indexAttempt doc] ++ notif)

/-- Search criteria the pipeline uses: `{ since: sinceDate }` for backfill
and `{ seen: false }` for the IDLE handler. -/
structure SearchCriteria where
  since : Option Nat
  seen : Option Bool
  deriving DecidableEq, Repr

/-- Outcome of `client.fetchOne`: a message, a null/false result (the
`if (msg)` guard in the source), or a rejection. -/
inductive FetchResult where
  | msg (m : FetchMessageObject) : FetchResult
  | nullResult : FetchResult
  | throws : FetchResult
  deriving DecidableEq, Repr

/-- One connected mailbox session: the behaviour of `client.search` (a
non-array result is modelled as `none`, handled by the `Array.isArray`
guard) and of `client.fetchOne` per UID. -/
structure Session where
  search : SearchCriteria → Option (List Nat)
  fetchOne : Nat → FetchResult

/-- Trace of one backfill (`initialSync`) run: the criteria passed to
`client.search`, the UIDs on which `fetchOne` was attempted in order, the
resulting store, the pipeline effects, and whether an uncaught fetch
rejection aborted the enumeration (propagating to the account handler). -/
structure SyncTrace where
  searches : List SearchCriteria
  fetchedUids : List Nat
  store : Store
  effects : List Effect
  aborted : Bool
  deriving Repr

/-- The `for (const uid of uids)` loop of `initialSync`: fetch each UID in
order; a null fetch skips the message; `processAndIndexEmail` is total, so
the loop continues past any processing failure; a fetch rejection is not
caught inside the loop and aborts the remaining enumeration. -/
def initialSyncLoop (env : PipelineEnv) (session : Session)
    (accountId : String) : List Nat → Store → SyncTrace
  | [], st =>
      { searches := [], fetchedUids := [], store := st, effects := [],
        aborted := false }
  | uid :: rest, st =>
      match session.fetchOne uid with
      | .throws =>
          { searches := [], fetchedUids := [uid], store := st,
            effects := [], aborted := true }
      | .nullResult =>
          let t := initialSyncLoop env session accountId rest st
          { t with fetchedUids := uid :: t.fetchedUids }
      | .msg m =>
          let r := processAndIndexEmail env st m accountId "INBOX"
          let t := initialSyncLoop env session accountId rest r.1
          { t with fetchedUids := uid :: t.fetchedUids,
                   effects := r.2 ++ t.effects }

/-- `ImapService.initialSync`: computes the lower bound `now − 30`,
searches `INBOX` with that since-criterion, and runs the fetch loop over
exactly the UIDs the search returned. -/
def initialSync (env : PipelineEnv) (session : Session) (store : Store)
    (accountId : String) : SyncTrace :=
  let crit : SearchCriteria := { since := some (env.now - 30), seen := none }
  let uids := (session.search crit).getD []
  let t := initialSyncLoop env session accountId uids store
  { t with searches := [crit] }

/-- Trace of one `exists`-notification handler invocation of
`setupRealTimeIdle`. -/
structure IdleTrace where
  searches : List SearchCriteria
  fetchedUids : List Nat
  processed : List FetchMessageObject
  store : Store
  effects : List Effect
  deriving Repr

/-- The `exists` handler of `ImapService.setupRealTimeIdle`: search for
unseen messages (`{ seen: false }`); if any UIDs come back, fetch only the
last one and process it when the fetch yields a message.  The whole
handler body is wrapped in `try`/`catch`, so a fetch rejection is caught
and the handler returns normally. -/
def onExistsHandler (env : PipelineEnv) (session : Session) (store : Store)
    (accountId path : String) : IdleTrace :=
  let crit : SearchCriteria := { since := none, seen := some false }
  let uids := (session.search crit).getD []
  match uids.getLast? with
  | none =>
      { searches := [crit], fetchedUids := [], processed := [],
        store := store, effects := [] }
  | some latestUid =>
      match session.fetchOne latestUid with
      | .throws =>
          { searches := [crit], fetchedUids := [latestUid], processed := [],
            store := store, effects := [] }
      | .nullResult =>
          { searches := [crit], fetchedUids := [latestUid], processed := [],
            store := store, effects := [] }
      | .msg m =>
          let r := processAndIndexEmail env store m accountId path
          { searches := [crit], fetchedUids := [latestUid],
            processed := [m], store := r.1, effects := r.2 }

/-- The static account configuration (`AccountConfig` in `ImapService.ts`);
credentials left unset in the environment are the empty string. -/
structure AccountConfig where
  id : String
  host : String
  port : Nat
  secure : Bool
  user : String
  pass : String
  deriving DecidableEq, Repr

/-- The credential guard of `startSync`:
`config.id !== 'placeholder-account-2' || (config.auth.user && config.auth.pass)`. -/
def eligibleAccount (c : AccountConfig) : Bool :=
  c.id ≠ "placeholder-account-2" || (c.user ≠ "" && c.pass ≠ "")

/-- Per-account outcome of one `startSync` pass. -/
inductive AccountResult where
  | skipped : AccountResult
  | connectFailed : AccountResult
  | synced : AccountResult
  deriving DecidableEq, Repr

/-- `ImapService.connectAndSyncAccount`, abstracted to its control flow:
`client.connect()` either succeeds (yielding a session, then `initialSync`
runs and the IDLE handler is registered) or throws; the `catch` logs and
returns normally, so a connect failure terminates only this account's
task.  `sessions c.id = none` models a throwing connect. -/
def connectAndSyncAccount (sessions : String → Option Session)
    (c : AccountConfig) : AccountResult :=
  match sessions c.id with
  | none => AccountResult.connectFailed
  | some _ => AccountResult.synced

/-- `ImapService.startSync`: iterate over the configured accounts; each
eligible account is connected and synced, and because
`connectAndSyncAccount` catches its own failures the loop always reaches
every remaining account. -/
def startSync (sessions : String → Option Session)
    (configs : List AccountConfig) : List (String × AccountResult) :=
  configs.map fun c =>
    if eligibleAccount c then (c.id, connectAndSyncAccount sessions c)
    else (c.id, AccountResult.skipped)

/-- The `EmailDocument` that `processAndIndexEmail` constructs when the
source parses to `parsed`: the classification call receives
`parsed.subject || '(No Subject)'` and `parsed.text || parsed.html || ''`. -/
def pipelineDoc (env : PipelineEnv) (msg : FetchMessageObject)
    (accountId folder : String) (parsed : ParsedMail) : EmailDocument :=
  buildEmailDocument accountId folder msg.uid msg.flags parsed
    (categorizeEmail env.oracle (jsOr parsed.subject "(No Subject)")
      (jsOr parsed.text (jsOr parsed.html ""))) env.now

/-! Concrete fixtures used to instantiate the theorems below. -/

/-- An oracle that always answers `Interested`. -/
def pinnedInterestedOracle : OracleEnv :=
  { apiKeySet := true, call := fun _ _ => .category "Interested" }

/-- An oracle with no API key configured. -/
def disabledOracle : OracleEnv :=
  { apiKeySet := false, call := fun _ _ => .category "Spam" }

/-- A pipeline environment whose Document Store write fails. -/
def envIndexFails : PipelineEnv :=
  { oracle := pinnedInterestedOracle, indexFails := true, now := 5 }

/-- A healthy pipeline environment at abstract time 100. -/
def envHealthy : PipelineEnv :=
  { oracle := pinnedInterestedOracle, indexFails := false, now := 100 }

/-- A parsed mail with every optional field absent. -/
def parsedBare : ParsedMail :=
  { messageId := none, subject := none, text := none, html := none,
    textAsHtml := none, «from» := none, «to» := none, date := none }

/-- A fetched message with UID 7 whose source parses to `parsedBare`. -/
def msgUid7 : FetchMessageObject :=
  { uid := 7, source := some (.ok parsedBare), flags := none }

/-- A fetched message with no source buffer. -/
def msgNoSource : FetchMessageObject :=
  { uid := 3, source := none, flags := none }

/-- A fetched message whose parsed date (0) lies outside the 30-day window
of `envHealthy` (lower bound 70). -/
def msgDatedOutside : FetchMessageObject :=
  { uid := 2, source := some (.ok { parsedBare with date := some 0 }),
    flags := none }

/-- A session whose backfill search returns UIDs 1 and 2, where UID 2's
message is dated outside the window; no fetch ever rejects. -/
def sessionOutOfWindow : Session :=
  { search := fun c => if c.since = some 70 then some [1, 2] else some []
    fetchOne := fun uid =>
      if uid = 2 then .msg msgDatedOutside
      else .msg { uid := 1, source := some (.ok parsedBare), flags := none } }

/-- A session whose backfill search returns UIDs 1 and 2 and whose fetch of
UID 1 rejects. -/
def sessionFetchThrows : Session :=
  { search := fun c => if c.since = some 70 then some [1, 2] else some []
    fetchOne := fun uid =>
      if uid = 1 then .throws
      else .msg { uid := 2, source := some (.ok parsedBare), flags := none } }

/-- A fetched message with UID 9 carrying the `\Seen` flag. -/
def msgUid9 : FetchMessageObject :=
  { uid := 9, source := some (.ok parsedBare), flags := some ["\\Seen"] }

/-- A session whose unseen search returns UIDs 4 and 9 and which serves the
message for UID 9. -/
def sessionIdle : Session :=
  { search := fun c => if c.seen = some false then some [4, 9] else some []
    fetchOne := fun uid => if uid = 9 then .msg msgUid9 else .nullResult }

/-- An inert session: empty searches, null fetches. -/
def sessionInert : Session :=
  { search := fun _ => some [], fetchOne := fun _ => .nullResult }

/-- A configured account with credentials present. -/
def accountA : AccountConfig :=
  { id := "gmail-account-1", host := "imap.gmail.com", port := 993,
    secure := true, user := "u1", pass := "p1" }

/-- A second configured account with credentials present. -/
def accountB : AccountConfig :=
  { id := "acct-b", host := "imap.example.com", port := 993,
    secure := true, user := "u2", pass := "p2" }

/-- A connection map where `accountA`'s connect throws and `accountB`'s
succeeds. -/
def sessionsOneDown : String → Option Session :=
  fun i => if i = "acct-b" then some sessionInert else none

/-! Helper lemmas. -/

/-- Upserting the same document twice is the same as upserting it once. -/
theorem upsert_upsert_self (s : Store) (i : String) (d : EmailDocument) :
    upsert (upsert s i d) i d = upsert s i d := by
  induction s with
  | nil => simp [upsert]
  | cons kv rest ih =>
      by_cases h : kv.1 = i
      · simp [upsert, h]
      · simp [upsert, h, ih]

/-- If no key of `s` equals `i`, every entry of `upsert s i d` with key `i`
is `(i, d)` appended at the end; in particular the filter below. -/
theorem upsert_filter_key (s : Store) (i : String) (d : EmailDocument)
    (h : (s.map Prod.fst).Nodup) :
    (upsert s i d).filter (fun kv => kv.1 = i) = [(i, d)] := by
  induction s with
  | nil => simp [upsert]
  | cons kv rest ih =>
      rw [List.map_cons, List.nodup_cons] at h
      by_cases hk : kv.1 = i
      · have hrest : rest.filter (fun kv => kv.1 = i) = [] := by
          rw [List.filter_eq_nil_iff]
          intro a ha
          simp only [decide_eq_true_eq]
          intro hai
          exact h.1 (hk ▸ hai ▸ List.mem_map_of_mem Prod.fst ha)
        simp [upsert, hk, List.filter_cons, hrest]
      · simp [upsert, hk, List.filter_cons, ih h.2]

/-- If no fetch in the enumeration rejects, the backfill loop fetches every
enumerated UID in order and does not abort. -/
theorem initialSyncLoop_fetch_all (env : PipelineEnv) (session : Session)
    (accountId : String) :
    ∀ (uids : List Nat) (st : Store),
      (∀ uid ∈ uids, session.fetchOne uid ≠ .throws) →
      (initialSyncLoop env session accountId uids st).fetchedUids = uids ∧
      (initialSyncLoop env session accountId uids st).aborted = false := by
  intro uids
  induction uids with
  | nil => intro st _; simp [initialSyncLoop]
  | cons uid rest ih =>
      intro st hok
      have huid := hok uid (List.mem_cons_self uid rest)
      have hrest : ∀ u ∈ rest, session.fetchOne u ≠ .throws :=
        fun u hu => hok u (List.mem_cons_of_mem uid hu)
      cases hf : session.fetchOne uid with
      | throws => exact absurd hf huid
      | nullResult =>
          have := ih st hrest
          simp [initialSyncLoop, hf, this.1, this.2]
      | msg m =>
          have := ih (processAndIndexEmail env st m accountId "INBOX").1 hrest
          simp [initialSyncLoop, hf, this.1, this.2]

/-- A rejecting fetch aborts the backfill loop: the UIDs before it are
fetched, the rejecting UID is the last fetch attempt, and the remaining
enumeration is dropped. -/
theorem initialSyncLoop_abort (env : PipelineEnv) (session : Session)
    (accountId : String) :
    ∀ (front : List Nat) (u : Nat) (back : List Nat) (st : Store),
      (∀ x ∈ front, session.fetchOne x ≠ .throws) →
      session.fetchOne u = .throws →
      (initialSyncLoop env session accountId (front ++ u :: back) st).fetchedUids
        = front ++ [u] ∧
      (initialSyncLoop env session accountId (front ++ u :: back) st).aborted
        = true := by
  intro front
  induction front with
  | nil => intro u back st _ hu; simp [initialSyncLoop, hu]
  | cons x rest ih =>
      intro u back st hok hu
      have hx := hok x (List.mem_cons_self x rest)
      have hrest : ∀ y ∈ rest, session.fetchOne y ≠ .throws :=
        fun y hy => hok y (List.mem_cons_of_mem x hy)
      cases hf : session.fetchOne x with
      | throws => exact absurd hf hx
      | nullResult =>
          have := ih u back st hrest hu
          simp [initialSyncLoop, hf, this.1, this.2]
      | msg m =>
          have := ih u back (processAndIndexEmail env st m accountId "INBOX").1
            hrest hu
          simp [initialSyncLoop, hf, this.1, this.2]

/-! Claim theorems. -/

/-- C2: `categorizeEmail` always returns one of the six enumerated labels,
never an absent value, and it is total (the source catches every failure of
the external call).  If the oracle is disabled (no API key), the call
throws, the response content is empty, the JSON is malformed, or the
returned label lies outside the closed six-label set, the result is
`Uncategorized`. -/
theorem categorizeEmail_closed_set_and_fallback (env : OracleEnv)
    (subject body : String) :
    categorizeEmail env subject body ∈ VALID_CATEGORIES ∧
    (env.apiKeySet = false → categorizeEmail env subject body = "Uncategorized") ∧
    (env.call subject (body.take 2000) = .throws →
      categorizeEmail env subject body = "Uncategorized") ∧
    (env.call subject (body.take 2000) = .emptyContent →
      categorizeEmail env subject body = "Uncategorized") ∧
    (env.call subject (body.take 2000) = .malformedJson →
      categorizeEmail env subject body = "Uncategorized") ∧
    (∀ c, env.call subject (body.take 2000) = .category c →
      c ∉ VALID_CATEGORIES → categorizeEmail env subject body = "Uncategorized") := by
  refine ⟨?_, ?_, ?_, ?_, ?_, ?_⟩
  · cases hk : env.apiKeySet with
    | false =>
        have : categorizeEmail env subject body = "Uncategorized" := by
          simp [categorizeEmail, hk]
        rw [this]; decide
    | true =>
        cases hc : env.call subject (body.take 2000) with
        | category c =>
            by_cases hv : c ≠ "" ∧ c ∈ VALID_CATEGORIES
            · have : categorizeEmail env subject body = c := by
                simp [categorizeEmail, hk, hc, hv]
              rw [this]; exact hv.2
            · have : categorizeEmail env subject body = "Uncategorized" := by
                simp [categorizeEmail, hk, hc, hv]
              rw [this]; decide
        | throws =>
            have : categorizeEmail env subject body = "Uncategorized" := by
              simp [categorizeEmail, hk, hc]
            rw [this]; decide
        | emptyContent =>
            have : categorizeEmail env subject body = "Uncategorized" := by
              simp [categorizeEmail, hk, hc]
            rw [this]; decide
        | malformedJson =>
            have : categorizeEmail env subject body = "Uncategorized" := by
              simp [categorizeEmail, hk, hc]
            rw [this]; decide
  · intro h; simp [categorizeEmail, h]
  · intro h
    cases hk : env.apiKeySet with
    | false => simp [categorizeEmail, hk]
    | true => simp [categorizeEmail, hk, h]
  · intro h
    cases hk : env.apiKeySet with
    | false => simp [categorizeEmail, hk]
    | true => simp [categorizeEmail, hk, h]
  · intro h
    cases hk : env.apiKeySet with
    | false => simp [categorizeEmail, hk]
    | true => simp [categorizeEmail, hk, h]
  · intro c hc hnv
    cases hk : env.apiKeySet with
    | false => simp [categorizeEmail, hk]
    | true =>
        have hv : ¬(c ≠ "" ∧ c ∈ VALID_CATEGORIES) := fun h => hnv h.2
        simp [categorizeEmail, hk, hc, hv]

/-- Witness for C2 at a disabled oracle. -/
theorem categorizeEmail_closed_set_and_fallback_witness :
    categorizeEmail disabledOracle "hello" "world" ∈ VALID_CATEGORIES ∧
    categorizeEmail disabledOracle "hello" "world" = "Uncategorized" := by
  have h := categorizeEmail_closed_set_and_fallback disabledOracle "hello" "world"
  exact ⟨h.1, h.2.1 rfl⟩

/-- C5: a message with an absent source buffer, or one whose source the
parser rejects, is skipped entirely: the store is unchanged (zero Document
Store writes), the effect list is empty (zero classification calls and
zero notifications), and the function returns normally. -/
theorem unparseable_source_skipped (env : PipelineEnv) (store : Store)
    (msg : FetchMessageObject) (accountId folder : String)
    (h : msg.source = none ∨ msg.source = some ParseOutcome.throws) :
    processAndIndexEmail env store msg accountId folder = (store, []) := by
  rcases h with h | h <;> simp [processAndIndexEmail, h]

/-- Witness for C5 at a sourceless message. -/
theorem unparseable_source_skipped_witness :
    processAndIndexEmail envHealthy [] msgNoSource "acc" "INBOX" = ([], []) :=
  unparseable_source_skipped envHealthy [] msgNoSource "acc" "INBOX" (Or.inl rfl)

/-- C4: for a message whose source parses, the Notification Sink is
invoked with the constructed document if and only if the computed
`ai_category` equals `Interested`; in particular it is never invoked for
any other label. -/
theorem automation_gating_iff (env : PipelineEnv) (store : Store)
    (msg : FetchMessageObject) (accountId folder : String)
    (parsed : ParsedMail)
    (hsrc : msg.source = some (.ok parsed)) :
    ∀ d : EmailDocument,
      Effect.notify d ∈ (processAndIndexEmail env store msg accountId folder).2 ↔
        (categorizeEmail env.oracle (jsOr parsed.subject "(No Subject)")
            (jsOr parsed.text (jsOr parsed.html "")) = "Interested" ∧
          d = pipelineDoc env msg accountId folder parsed) := by
  intro d
  by_cases hcat : categorizeEmail env.oracle (jsOr parsed.subject "(No Subject)")
      (jsOr parsed.text (jsOr parsed.html "")) = "Interested"
  · simp [processAndIndexEmail, hsrc, pipelineDoc, hcat]
  · simp [processAndIndexEmail, hsrc, pipelineDoc, hcat]

/-- Witness for C4: with a pinned `Interested` oracle the sink receives the
constructed document. -/
theorem automation_gating_iff_witness :
    Effect.notify (pipelineDoc envHealthy msgUid7 "acc" "INBOX" parsedBare) ∈
      (processAndIndexEmail envHealthy [] msgUid7 "acc" "INBOX").2 :=
  (automation_gating_iff envHealthy [] msgUid7 "acc" "INBOX" parsedBare rfl
    (pipelineDoc envHealthy msgUid7 "acc" "INBOX" parsedBare)).mpr
    ⟨by decide, rfl⟩

/-- C3 counterexample: with the Document Store write failing
(`envIndexFails`) and a pinned `Interested` oracle, processing the
UID-7 message leaves the store unchanged (the upsert failed and was
swallowed) and yet the Notification Sink IS invoked with the document —
the claim that no notification fires after a failed upsert is false on
the code. -/
theorem index_failure_still_notifies_cex :
    envIndexFails.indexFails = true ∧
    (pipelineDoc envIndexFails msgUid7 "acc" "INBOX" parsedBare).ai_category
      = "Interested" ∧
    (processAndIndexEmail envIndexFails [] msgUid7 "acc" "INBOX").1 = [] ∧
    Effect.notify (pipelineDoc envIndexFails msgUid7 "acc" "INBOX" parsedBare) ∈
      (processAndIndexEmail envIndexFails [] msgUid7 "acc" "INBOX").2 := by
  decide

/-- C3 amended: when the Document Store upsert fails, the failure is
swallowed inside `indexDocument` (logged there), no exception escapes
`processAndIndexEmail` (the function is total and returns normally), and
the store is unchanged — but the Notification Sink is still invoked
whenever `ai_category` is `Interested`: an index failure is not
message-fatal and does not suppress the automation. -/
theorem index_failure_swallowed_still_notifies (env : PipelineEnv)
    (store : Store) (msg : FetchMessageObject) (accountId folder : String)
    (parsed : ParsedMail)
    (hsrc : msg.source = some (.ok parsed))
    (hfail : env.indexFails = true) :
    (processAndIndexEmail env store msg accountId folder).1 = store ∧
    (categorizeEmail env.oracle (jsOr parsed.subject "(No Subject)")
        (jsOr parsed.text (jsOr parsed.html "")) = "Interested" →
      Effect.notify (pipelineDoc env msg accountId folder parsed) ∈
        (processAndIndexEmail env store msg accountId folder).2) := by
  constructor
  · simp [processAndIndexEmail, hsrc, indexDocument, hfail]
  · intro hcat
    simp [processAndIndexEmail, hsrc, pipelineDoc, hcat]

/-- Witness for the amended C3. -/
theorem index_failure_swallowed_still_notifies_witness :
    (processAndIndexEmail envIndexFails [] msgUid7 "acc" "INBOX").1 = [] ∧
    Effect.notify (pipelineDoc envIndexFails msgUid7 "acc" "INBOX" parsedBare) ∈
      (processAndIndexEmail envIndexFails [] msgUid7 "acc" "INBOX").2 := by
  have h := index_failure_swallowed_still_notifies envIndexFails [] msgUid7
    "acc" "INBOX" parsedBare rfl rfl
  exact ⟨h.1, h.2 (by decide)⟩

/-- C1: the document id is the pure function `{accountId}-{uid}` of the
account and UID, the Document Store write is keyed by that id, and with a
pinned (deterministic) oracle processing the same raw message twice leaves
the store exactly as after the first processing, with exactly one stored
entry for that id carrying identical field values, and identical effects
both times. -/
theorem storage_idempotent (env : PipelineEnv) (store : Store)
    (msg : FetchMessageObject) (accountId folder : String)
    (parsed : ParsedMail)
    (hsrc : msg.source = some (.ok parsed))
    (hidx : env.indexFails = false)
    (hkeys : (store.map Prod.fst).Nodup) :
    (pipelineDoc env msg accountId folder parsed).id
      = accountId ++ "-" ++ toString msg.uid ∧
    (processAndIndexEmail env store msg accountId folder).1
      = upsert store (pipelineDoc env msg accountId folder parsed).id
          (pipelineDoc env msg accountId folder parsed) ∧
    (processAndIndexEmail env
        (processAndIndexEmail env store msg accountId folder).1
        msg accountId folder).1
      = (processAndIndexEmail env store msg accountId folder).1 ∧
    (processAndIndexEmail env
        (processAndIndexEmail env store msg accountId folder).1
        msg accountId folder).2
      = (processAndIndexEmail env store msg accountId folder).2 ∧
    (processAndIndexEmail env store msg accountId folder).1.filter
        (fun kv => kv.1 = (pipelineDoc env msg accountId folder parsed).id)
      = [((pipelineDoc env msg accountId folder parsed).id,
          pipelineDoc env msg accountId folder parsed)] := by
  have hrun : (processAndIndexEmail env store msg accountId folder).1
      = upsert store (pipelineDoc env msg accountId folder parsed).id
          (pipelineDoc env msg accountId folder parsed) := by
    simp [processAndIndexEmail, hsrc, indexDocument, hidx, pipelineDoc,
      buildEmailDocument]
  have hrun2 : (processAndIndexEmail env
      (processAndIndexEmail env store msg accountId folder).1
      msg accountId folder).1
      = upsert (processAndIndexEmail env store msg accountId folder).1
          (pipelineDoc env msg accountId folder parsed).id
          (pipelineDoc env msg accountId folder parsed) := by
    simp [processAndIndexEmail, hsrc, indexDocument, hidx, pipelineDoc,
      buildEmailDocument]
  refine ⟨rfl, hrun, ?_, ?_, ?_⟩
  · rw [hrun2, hrun, upsert_upsert_self]
  · simp [processAndIndexEmail, hsrc]
  · rw [hrun]
    exact upsert_filter_key store _ _ hkeys

/-- Witness for C1 at the UID-7 message over an empty store. -/
theorem storage_idempotent_witness :
    (pipelineDoc envHealthy msgUid7 "acc" "INBOX" parsedBare).id = "acc-7" ∧
    (processAndIndexEmail envHealthy
        (processAndIndexEmail envHealthy [] msgUid7 "acc" "INBOX").1
        msgUid7 "acc" "INBOX").1
      = (processAndIndexEmail envHealthy [] msgUid7 "acc" "INBOX").1 ∧
    (processAndIndexEmail envHealthy [] msgUid7 "acc" "INBOX").1.filter
        (fun kv => kv.1 = (pipelineDoc envHealthy msgUid7 "acc" "INBOX" parsedBare).id)
      = [((pipelineDoc envHealthy msgUid7 "acc" "INBOX" parsedBare).id,
          pipelineDoc envHealthy msgUid7 "acc" "INBOX" parsedBare)] := by
  have h := storage_idempotent envHealthy [] msgUid7 "acc" "INBOX" parsedBare
    rfl rfl (by decide)
  exact ⟨by rw [h.1]; decide, h.2.2.1, h.2.2.2.2⟩

/-- C6: a failing connect is caught inside `connectAndSyncAccount` and
terminates only that account's task, so `startSync` still runs every other
configured account: the failed account yields `connectFailed` while any
eligible account with a working session yields `synced`, and an account's
outcome depends only on its own session, never on another account's
failure. -/
theorem account_failure_isolated (sessions : String → Option Session)
    (configs : List AccountConfig) (a b : AccountConfig) (s : Session)
    (ha : a ∈ configs) (hafail : sessions a.id = none)
    (haelig : eligibleAccount a = true)
    (hb : b ∈ configs) (hbelig : eligibleAccount b = true)
    (hbs : sessions b.id = some s) :
    (a.id, AccountResult.connectFailed) ∈ startSync sessions configs ∧
    (b.id, AccountResult.synced) ∈ startSync sessions configs ∧
    (∀ sessions₂ : String → Option Session, sessions₂ b.id = sessions b.id →
      connectAndSyncAccount sessions₂ b = AccountResult.synced) := by
  refine ⟨?_, ?_, ?_⟩
  · unfold startSync
    refine List.mem_map.mpr ⟨a, ha, ?_⟩
    simp [haelig, connectAndSyncAccount, hafail]
  · unfold startSync
    refine List.mem_map.mpr ⟨b, hb, ?_⟩
    simp [hbelig, connectAndSyncAccount, hbs]
  · intro sessions₂ h2
    simp [connectAndSyncAccount, h2, hbs]

/-- Witness for C6 with one unreachable and one reachable account. -/
theorem account_failure_isolated_witness :
    (accountA.id, AccountResult.connectFailed) ∈
      startSync sessionsOneDown [accountA, accountB] ∧
    (accountB.id, AccountResult.synced) ∈
      startSync sessionsOneDown [accountA, accountB] := by
  have h := account_failure_isolated sessionsOneDown [accountA, accountB]
    accountA accountB sessionInert (by decide) rfl (by decide)
    (by decide) (by decide) rfl
  exact ⟨h.1, h.2.1⟩

/-- C7: on each `exists` notification the handler issues exactly one
search, for messages not yet marked read; if the unseen search returns a
non-empty UID sequence it fetches only the last element of that sequence
and processes exactly the message that fetch yields, and if the sequence
is empty it performs no fetch and no processing. -/
theorem idle_processes_last_unseen (env : PipelineEnv) (session : Session)
    (store : Store) (accountId path : String) :
    (onExistsHandler env session store accountId path).searches
      = [{ since := none, seen := some false }] ∧
    ((session.search { since := none, seen := some false }).getD [] = [] →
      (onExistsHandler env session store accountId path).fetchedUids = [] ∧
      (onExistsHandler env session store accountId path).processed = [] ∧
      (onExistsHandler env session store accountId path).store = store ∧
      (onExistsHandler env session store accountId path).effects = []) ∧
    (∀ (front : List Nat) (u : Nat) (m : FetchMessageObject),
      session.search { since := none, seen := some false }
        = some (front ++ [u]) →
      session.fetchOne u = .msg m →
      (onExistsHandler env session store accountId path).fetchedUids = [u] ∧
      (onExistsHandler env session store accountId path).processed = [m] ∧
      (onExistsHandler env session store accountId path).store
        = (processAndIndexEmail env store m accountId path).1 ∧
      (onExistsHandler env session store accountId path).effects
        = (processAndIndexEmail env store m accountId path).2) := by
  refine ⟨?_, ?_, ?_⟩
  · cases h : ((session.search { since := none, seen := some false }).getD []).getLast? with
    | none => simp [onExistsHandler, h]
    | some u => cases hf : session.fetchOne u <;> simp [onExistsHandler, h, hf]
  · intro h
    simp [onExistsHandler, h]
  · intro front u m hs hf
    have hlast : ((session.search
        { since := none, seen := some false }).getD []).getLast? = some u := by
      rw [hs]
      simp [List.getLast?_append_cons]
    simp [onExistsHandler, hlast, hf]

/-- Witness for C7: the handler over `sessionIdle` fetches only UID 9 (the
last unseen UID) and processes its message. -/
theorem idle_processes_last_unseen_witness :
    (onExistsHandler envHealthy sessionIdle [] "acc" "INBOX").fetchedUids = [9] ∧
    (onExistsHandler envHealthy sessionIdle [] "acc" "INBOX").processed = [msgUid9] := by
  have h := (idle_processes_last_unseen envHealthy sessionIdle [] "acc"
    "INBOX").2.2 [4] 9 msgUid9 rfl rfl
  exact ⟨h.1, h.2.1⟩

/-- C8 counterexample: the backfill fetches every UID its search returns,
with no re-check of dates.  `sessionOutOfWindow`'s search for the window
lower bound 70 returns UIDs 1 and 2, yet UID 2's message is dated 0 —
outside the 30-day window — and UID 2 is fetched anyway, so the claim
that only in-window UIDs are fetched is false on the code. -/
theorem backfill_out_of_window_fetched_cex :
    envHealthy.now - 30 = 70 ∧
    sessionOutOfWindow.search { since := some 70, seen := none } = some [1, 2] ∧
    sessionOutOfWindow.fetchOne 2 = FetchResult.msg msgDatedOutside ∧
    msgDatedOutside.source = some (.ok { parsedBare with date := some 0 }) ∧
    0 < envHealthy.now - 30 ∧
    2 ∈ (initialSync envHealthy sessionOutOfWindow [] "acc").fetchedUids := by
  decide

/-- C8 amended: backfill computes the lower bound `now − 30` and passes it
as the since-criterion of its single search; it then fetches exactly the
UIDs the search returned, in order and without re-filtering by date (when
no fetch rejects), so any out-of-window UIDs the search primitive returns
are fetched too. -/
theorem backfill_since_criterion_no_refilter (env : PipelineEnv)
    (session : Session) (store : Store) (accountId : String)
    (hok : ∀ uid ∈ (session.search
        { since := some (env.now - 30), seen := none }).getD [],
      session.fetchOne uid ≠ FetchResult.throws) :
    (initialSync env session store accountId).searches
      = [{ since := some (env.now - 30), seen := none }] ∧
    (initialSync env session store accountId).fetchedUids
      = (session.search { since := some (env.now - 30), seen := none }).getD [] ∧
    (initialSync env session store accountId).aborted = false := by
  have h := initialSyncLoop_fetch_all env session accountId
    ((session.search { since := some (env.now - 30), seen := none }).getD [])
    store hok
  exact ⟨by simp [initialSync], by simp [initialSync, h.1],
    by simp [initialSync, h.2]⟩

/-- Witness for the amended C8 over `sessionOutOfWindow`. -/
theorem backfill_since_criterion_no_refilter_witness :
    (initialSync envHealthy sessionOutOfWindow [] "acc").searches
      = [{ since := some 70, seen := none }] ∧
    (initialSync envHealthy sessionOutOfWindow [] "acc").fetchedUids = [1, 2] ∧
    (initialSync envHealthy sessionOutOfWindow [] "acc").aborted = false := by
  have h := backfill_since_criterion_no_refilter envHealthy sessionOutOfWindow
    [] "acc" (by decide)
  exact ⟨h.1, h.2.1.trans (by decide), h.2.2⟩

/-- C9 counterexample: `sessionFetchThrows` enumerates UIDs 1 and 2 but its
fetch of UID 1 rejects; the rejection is not caught inside the backfill
loop, so UID 2 is never fetched or processed and the backfill aborts —
the claim that a failure during fetch does not abort the remaining
enumeration is false on the code. -/
theorem backfill_fetch_error_aborts_cex :
    sessionFetchThrows.search { since := some 70, seen := none } = some [1, 2] ∧
    sessionFetchThrows.fetchOne 1 = FetchResult.throws ∧
    (initialSync envHealthy sessionFetchThrows [] "acc").fetchedUids = [1] ∧
    2 ∉ (initialSync envHealthy sessionFetchThrows [] "acc").fetchedUids ∧
    (initialSync envHealthy sessionFetchThrows [] "acc").aborted = true := by
  decide

/-- C9 amended: within one account's backfill the enumerated UIDs are
fetched and processed sequentially in search-result order, and the failure
of a message during PROCESSING never aborts the remainder —
`processAndIndexEmail` is total, so for every environment (failing oracle,
failing store) and every message content (absent or unparseable source)
all enumerated UIDs are still fetched, provided no fetch rejects.  A
failure during FETCH, however, aborts the remaining enumeration: the UIDs
before it are fetched, the rejecting UID is the last attempt, and the
rest are dropped. -/
theorem backfill_processing_isolated_fetch_fatal (env : PipelineEnv)
    (session : Session) (store : Store) (accountId : String) :
    ((∀ uid ∈ (session.search
          { since := some (env.now - 30), seen := none }).getD [],
        session.fetchOne uid ≠ FetchResult.throws) →
      (initialSync env session store accountId).fetchedUids
        = (session.search { since := some (env.now - 30), seen := none }).getD [] ∧
      (initialSync env session store accountId).aborted = false) ∧
    (∀ (front : List Nat) (u : Nat) (back : List Nat),
      (session.search { since := some (env.now - 30), seen := none }).getD []
        = front ++ u :: back →
      (∀ x ∈ front, session.fetchOne x ≠ FetchResult.throws) →
      session.fetchOne u = FetchResult.throws →
      (initialSync env session store accountId).fetchedUids = front ++ [u] ∧
      (initialSync env session store accountId).aborted = true) := by
  constructor
  · intro hok
    have h := initialSyncLoop_fetch_all env session accountId
      ((session.search { since := some (env.now - 30), seen := none }).getD [])
      store hok
    exact ⟨by simp [initialSync, h.1], by simp [initialSync, h.2]⟩
  · intro front u back hs hfront hu
    have h := initialSyncLoop_abort env session accountId front u back store
      hfront hu
    rw [← hs] at h
    exact ⟨by simp [initialSync, h.1], by simp [initialSync, h.2]⟩

/-- Witness for the amended C9: all UIDs fetched on `sessionOutOfWindow`;
the rejection on `sessionFetchThrows` aborts after UID 1. -/
theorem backfill_processing_isolated_fetch_fatal_witness :
    ((initialSync envHealthy sessionOutOfWindow [] "acc").fetchedUids = [1, 2] ∧
      (initialSync envHealthy sessionOutOfWindow [] "acc").aborted = false) ∧
    ((initialSync envHealthy sessionFetchThrows [] "acc").fetchedUids = [1] ∧
      (initialSync envHealthy sessionFetchThrows [] "acc").aborted = true) := by
  have h1 := (backfill_processing_isolated_fetch_fatal envHealthy
    sessionOutOfWindow [] "acc").1 (by decide)
  have h2 := (backfill_processing_isolated_fetch_fatal envHealthy
    sessionFetchThrows [] "acc").2 [] 1 [2] (by decide) (by decide) (by decide)
  exact ⟨⟨h1.1.trans (by decide), h1.2⟩, ⟨h2.1, h2.2⟩⟩

/-- C10 counterexample: when the parsed `html` is absent the constructed
document's `body_html` is not the empty string — it falls back to the
parser's `textAsHtml` rendering first, so the claim's stated fallback
(`body_html` empty string) is false on the code. -/
theorem body_html_fallback_cex :
    ({ parsedBare with textAsHtml := some "<p>hi</p>" } : ParsedMail).html
      = none ∧
    (buildEmailDocument "a" "f" 1 none
        { parsedBare with textAsHtml := some "<p>hi</p>" }
        "Uncategorized" 0).body_html = "<p>hi</p>" ∧
    ("<p>hi</p>" : String) ≠ "" := by
  decide

/-- C10 amended: every field of a constructed `EmailDocument` is populated
with a deterministic fallback when the parsed value is absent — subject
`(No Subject)`, from and to `unknown@example.com`, message_id
`no-id-{uid}`, body_text empty, body_html falling back to the parser's
`textAsHtml` and only then to the empty string, date the current time,
flags the empty list and read false when flags are absent, with read true
exactly when `\Seen` is among the flags — and the id is always
`{accountId}-{uid}`; no field is ever null or missing. -/
theorem emailDocument_field_fallbacks (accountId folder : String) (uid : Nat)
    (flags : Option (List String)) (parsed : ParsedMail)
    (aiCategory : String) (now : Nat) :
    (parsed.subject = none →
      (buildEmailDocument accountId folder uid flags parsed aiCategory now).subject
        = "(No Subject)") ∧
    (parsed.«from» = none →
      (buildEmailDocument accountId folder uid flags parsed aiCategory now).«from»
        = "unknown@example.com") ∧
    (parsed.«to» = none →
      (buildEmailDocument accountId folder uid flags parsed aiCategory now).«to»
        = "unknown@example.com") ∧
    (parsed.messageId = none →
      (buildEmailDocument accountId folder uid flags parsed aiCategory now).message_id
        = "no-id-" ++ toString uid) ∧
    (parsed.text = none →
      (buildEmailDocument accountId folder uid flags parsed aiCategory now).body_text
        = "") ∧
    (parsed.html = none →
      (buildEmailDocument accountId folder uid flags parsed aiCategory now).body_html
        = jsOr parsed.textAsHtml "") ∧
    (parsed.date = none →
      (buildEmailDocument accountId folder uid flags parsed aiCategory now).date
        = now) ∧
    (flags = none →
      (buildEmailDocument accountId folder uid flags parsed aiCategory now).flags
        = [] ∧
      (buildEmailDocument accountId folder uid flags parsed aiCategory now).read
        = false) ∧
    (∀ fs, flags = some fs →
      ((buildEmailDocument accountId folder uid flags parsed aiCategory now).read
          = true ↔ "\\Seen" ∈ fs)) ∧
    (buildEmailDocument accountId folder uid flags parsed aiCategory now).id
      = accountId ++ "-" ++ toString uid := by
  refine ⟨?_, ?_, ?_, ?_, ?_, ?_, ?_, ?_, ?_, rfl⟩
  · intro h; simp [buildEmailDocument, jsOr, h]
  · intro h; simp [buildEmailDocument, jsOr, h]
  · intro h; simp [buildEmailDocument, extractToList, h]
  · intro h; simp [buildEmailDocument, jsOr, h]
  · intro h; simp [buildEmailDocument, jsOr, h]
  · intro h; simp [buildEmailDocument, jsOr, h]
  · intro h; simp [buildEmailDocument, h]
  · intro h; simp [buildEmailDocument, h]
  · intro fs h
    simp [buildEmailDocument, h, List.elem_iff]

/-- Witness for the amended C10 at a fully bare parsed mail. -/
theorem emailDocument_field_fallbacks_witness :
    (buildEmailDocument "acc" "INBOX" 7 none parsedBare "Uncategorized" 5).subject
      = "(No Subject)" ∧
    (buildEmailDocument "acc" "INBOX" 7 none parsedBare "Uncategorized" 5).body_html
      = jsOr parsedBare.textAsHtml "" ∧
    (buildEmailDocument "acc" "INBOX" 7 none parsedBare "Uncategorized" 5).date
      = 5 ∧
    (buildEmailDocument "acc" "INBOX" 7 none parsedBare "Uncategorized" 5).read
      = false := by
  have h := emailDocument_field_fallbacks "acc" "INBOX" 7 none parsedBare
    "Uncategorized" 5
  exact ⟨h.1 rfl, h.2.2.2.2.2.1 rfl, h.2.2.2.2.2.2.1 rfl, (h.2.2.2.2.2.2.2.1 rfl).2⟩

end OneBox
